import Mathlib

/-!
Verification development for the shopify-store-profiler repository.

Each Python function relevant to the checked claims is given a shallow
embedding as a computable Lean definition.  Python strings are modelled by
Lean strings (lists of characters), numbers by rationals, fallible code by
the Except monad over a model of Python exception classes, and the network
by explicit oracles (lists of scripted HTTP responses, or outcome values
for calls whose internals are outside the profiled modules).
-/

/-- Model of the Python exception classes that the profiled code can raise
or catch.  ShopifyScraperError and ProductClusteringError are the two typed
errors defined by the repository; typeError, valueError and attributeError
model the built-in TypeError, ValueError and AttributeError; otherExn
stands for any other Exception subclass. -/
inductive PyExn where
  | shopifyScraperError (msg : String)
  | productClusteringError (msg : String)
  | typeError
  | valueError
  | attributeError
  | otherExn

/-- Sequential effectful map, mirroring how pandas apply evaluates a column
cell by cell and propagates the first raised exception. -/
def mapExcept {α β : Type} (f : α → Except PyExn β) : List α → Except PyExn (List β)
  | [] => .ok []
  | a :: as =>
    match f a with
    | .error e => .error e
    | .ok b =>
      match mapExcept f as with
      | .error e => .error e
      | .ok bs => .ok (b :: bs)

/-- Python str() of a possibly-NaN string cell: pandas astype(str) and str()
render the missing value NaN as the three-letter string "nan". -/
def pyStr : Option String → String
  | some s => s
  | none => "nan"

/-- Characters stripped by Python str.strip() (whitespace). -/
def isPyWS (c : Char) : Bool := c.isWhitespace

/-- Python str.strip(): drop whitespace from both ends of the character list. -/
def trimChars (l : List Char) : List Char :=
  ((l.dropWhile isPyWS).reverse.dropWhile isPyWS).reverse

/-- str.strip() on a Lean string. -/
def pyStrip (s : String) : String := ⟨trimChars s.data⟩

/-- Python str.split on a single separator character; an empty input yields
a single empty field, exactly as in Python. -/
def splitOnChar (sep : Char) : List Char → List (List Char)
  | [] => [[]]
  | c :: rest =>
    match splitOnChar sep rest with
    | [] => [[c]]
    | cur :: acc => if c = sep then [] :: cur :: acc else (c :: cur) :: acc

/-- Substring test: Python needle in haystack. -/
def containsSub (needle : List Char) : List Char → Bool
  | [] => needle.isEmpty
  | c :: rest => needle.isPrefixOf (c :: rest) || containsSub needle rest

/-- Per-character lowercasing, modelling str.lower() on the ASCII text the
fingerprint table uses. -/
def lowerChars (l : List Char) : List Char := l.map Char.toLower

/-- The character list of the literal "http://". -/
def httpPfx : List Char := ['h', 't', 't', 'p', ':', '/', '/']

/-- The character list of the literal "https://". -/
def httpsPfx : List Char := ['h', 't', 't', 'p', 's', ':', '/', '/']

/-- Characters at which urlparse ends the netloc component. -/
def netlocStop (c : Char) : Bool := c = '/' || c = '?' || c = '#'

/-- The netloc of the text following scheme://, as urlparse cuts it. -/
def netlocChars (l : List Char) : List Char := l.takeWhile (fun c => !netlocStop c)

/-- src/shopify_scraper.py lines 12-19, normalize_store_url on characters:
strip, add an https:// scheme when neither http:// nor https:// is present,
then keep only scheme://netloc as urlparse splits the URL. -/
def normChars (l : List Char) : List Char :=
  let t := trimChars l
  let u := if httpPfx.isPrefixOf t || httpsPfx.isPrefixOf t then t else httpsPfx ++ t
  if httpPfx.isPrefixOf u then httpPfx ++ netlocChars (u.drop 7)
  else httpsPfx ++ netlocChars (u.drop 8)

/-- src/shopify_scraper.py lines 12-19: normalize_store_url. -/
def normalize_store_url (s : String) : String := ⟨normChars s.data⟩

/-- src/reporting.py lines 19-22: store_slug_from_url, the netloc of the
normalized URL with dots replaced by underscores. -/
def store_slug_from_url (s : String) : String :=
  let b := normChars s.data
  let rest := if httpPfx.isPrefixOf b then b.drop 7 else b.drop 8
  ⟨(netlocChars rest).map (fun c => if c = '.' then '_' else c)⟩

/-- A JSON price field as seen by float(): parses when float() succeeds on
it (numbers and numeric strings), badStr when it is a string on which
float() raises ValueError, badType when it is a value (for example None)
on which float() raises TypeError. -/
inductive PriceJson where
  | parses (q : ℚ)
  | badStr
  | badType

/-- One raw variant object; price is absent when the dict lacks the key, in
which case .get returns None. -/
structure VariantJson where
  price : Option PriceJson

/-- The variants cell of one row of the raw product frame: either an actual
Python list of variant dicts, or any non-list value (including the NaN that
pandas puts in rows whose record lacked the key). -/
inductive VariantsCell where
  | list (vs : List VariantJson)
  | notList

/-- src/shopify_scraper.py lines 58-60, the first-variant-price lambda:
float(vs[0].get("price")) if isinstance(vs, list) and vs else None.
float raises ValueError on a non-numeric string and TypeError on None or
another non-castable value. -/
def first_variant_price_cell : VariantsCell → Except PyExn (Option ℚ)
  | .notList => .ok none
  | .list [] => .ok none
  | .list (v :: _) =>
    match v.price with
    | some (.parses q) => .ok (some q)
    | some .badStr => .error .valueError
    | some .badType => .error .typeError
    | none => .error .typeError

/-- The tags cell of one row: a Python list (items given by their str()
form), the missing value NaN, or any other scalar given by its str() form. -/
inductive TagsCell where
  | list (xs : List String)
  | na
  | scalar (s : String)

/-- src/shopify_scraper.py lines 72-77, normalize_tags: lists are stripped
item-wise keeping non-empty results; NaN becomes the empty list; any other
value is stringified, split on commas, stripped and filtered. -/
def normalize_tags : TagsCell → List String
  | .list xs => (xs.map pyStrip).filter (fun t => t != "")
  | .na => []
  | .scalar s => (((splitOnChar ',' s.data).map (fun f => pyStrip ⟨f⟩)).filter (fun t => t != ""))

/-- One raw product record as flattened by pd.json_normalize: each field is
present only when the upstream JSON record carried the key. -/
structure RawProduct where
  title : Option String
  body_html : Option String
  variants : Option VariantsCell
  tags : Option TagsCell
  product_type : Option String

/-- One row of the normalized products frame produced by fetch_products. -/
structure Product where
  title : Option String
  body_html : Option String
  product_type : String
  first_variant_price : Option ℚ
  title_len : ℕ
  desc_len : ℕ
  tags_list : List String
  cluster : Option ℕ

/-- src/shopify_scraper.py lines 54-84: the column-building part of
fetch_products.  A json_normalize column exists when at least one record
carries the key; rows without it hold NaN.  df.get with a missing column
returns the scalar default, on which .apply or .fillna raises
AttributeError (this happens for tags and product_type when no record has
the key).  Prices are built first, so a price exception wins over those. -/
def normalize_products (raw : List RawProduct) : Except PyExn (List Product) :=
  let pricesE : Except PyExn (List (Option ℚ)) :=
    if raw.any (fun r => r.variants.isSome) then
      mapExcept (fun r => first_variant_price_cell (r.variants.getD .notList)) raw
    else
      .ok (raw.map (fun _ => none))
  match pricesE with
  | .error e => .error e
  | .ok prices =>
    let titlePresent := raw.any (fun r => r.title.isSome)
    let bodyPresent := raw.any (fun r => r.body_html.isSome)
    if !(raw.any (fun r => r.tags.isSome)) then .error .attributeError
    else if !(raw.any (fun r => r.product_type.isSome)) then .error .attributeError
    else
      .ok ((raw.zip prices).map (fun rp =>
        let titleCell := if titlePresent then rp.1.title else some ""
        let bodyCell := if bodyPresent then rp.1.body_html else some ""
        { title := titleCell
          body_html := bodyCell
          product_type := rp.1.product_type.getD ""
          first_variant_price := rp.2
          title_len := (pyStr titleCell).data.length
          desc_len := (pyStr bodyCell).data.length
          tags_list := normalize_tags (rp.1.tags.getD .na)
          cluster := none }))

/-- One scripted HTTP response of the products endpoint: the status code
and the list under the "products" key of the JSON body (empty when the key
is missing, as data.get("products", []) reads it). -/
structure ProductsResp where
  status : ℕ
  products : List RawProduct

/-- The URL requested for one products page,
f"{base_url}/products.json?limit={limit}&page={page}". -/
def productsUrl (baseUrl : String) (limit page : ℕ) : String :=
  baseUrl ++ "/products.json?limit=" ++ toString limit ++ "&page=" ++ toString page

/-- The message raised by fetch_products on a non-200 status,
f"Failed fetching {url} (status {resp.status_code})". -/
def productsFailMsg (url : String) (status : ℕ) : String :=
  "Failed fetching " ++ url ++ " (status " ++ toString status ++ ")"

/-- The message raised by fetch_products when the accumulated list is empty. -/
def noProductsMsg : String := "No products found. Store may be empty or locked."

/-- src/shopify_scraper.py lines 29-49, the pagination loop of
fetch_products over a scripted server.  Requests past the scripted pages
answer 200 with an empty list (end of data).  Returns the accumulated
records together with the number of requests performed. -/
def fetchProductPages (baseUrl : String) (limit : ℕ) :
    List ProductsResp → ℕ → List RawProduct → ℕ → Except PyExn (List RawProduct × ℕ)
  | [], _, acc, reqs => .ok (acc, reqs + 1)
  | r :: rest, page, acc, reqs =>
    if r.status ≠ 200 then
      .error (.shopifyScraperError (productsFailMsg (productsUrl baseUrl limit page) r.status))
    else if r.products.isEmpty then .ok (acc, reqs + 1)
    else if r.products.length < limit then .ok (acc ++ r.products, reqs + 1)
    else fetchProductPages baseUrl limit rest (page + 1) (acc ++ r.products) (reqs + 1)

/-- src/shopify_scraper.py lines 29-52: the pagination loop followed by the
empty-result check. -/
def fetch_products_raw (baseUrl : String) (limit : ℕ) (pages : List ProductsResp) :
    Except PyExn (List RawProduct × ℕ) :=
  match fetchProductPages baseUrl limit pages 1 [] 0 with
  | .error e => .error e
  | .ok (prods, reqs) =>
    if prods.isEmpty then .error (.shopifyScraperError noProductsMsg)
    else .ok (prods, reqs)

/-- src/shopify_scraper.py lines 22-84: fetch_products, the loop plus the
normalization of the accumulated records into the products frame. -/
def fetch_products (baseUrl : String) (limit : ℕ) (pages : List ProductsResp) :
    Except PyExn (List Product) :=
  match fetch_products_raw baseUrl limit pages with
  | .error e => .error e
  | .ok (prods, _) => normalize_products prods

/-- A numeric cell as seen by pd.to_numeric with errors equal to coerce:
an actual number, a numeric string (parsing to the carried rational), a
non-numeric string (coerced to NaN), or a missing value. -/
inductive NumCell where
  | num (q : ℚ)
  | strNum (q : ℚ)
  | strBad
  | na

/-- pd.to_numeric with coercion on one cell. -/
def coerceCell : NumCell → Option ℚ
  | .num q => some q
  | .strNum q => some q
  | .strBad => none
  | .na => none

/-- pd.to_numeric(series, errors="coerce").dropna(). -/
def coerce_dropna (xs : List NumCell) : List ℚ := xs.filterMap coerceCell

/-- One raw collection record as flattened by pd.json_normalize; each field
is present only when the upstream JSON record carried the key. -/
structure RawCollection where
  title : Option String
  handle : Option String
  products_count : Option NumCell
  template_suffix : Option String

/-- One row of the normalized collections frame returned by
fetch_collections. -/
structure CollRow where
  title : Option String
  handle : Option String
  products_count : Option ℚ
  template_suffix : Option String

/-- src/collections_scraper.py lines 55-71: the column normalization of
fetch_collections.  A wholly missing title or handle column is replaced by
the empty string for every row (existing NaN cells are kept as NaN);
products_count is numerically coerced when its column exists and is the
missing value NA for every row otherwise. -/
def normalize_collections (raw : List RawCollection) : List CollRow :=
  let titlePresent := raw.any (fun r => r.title.isSome)
  let handlePresent := raw.any (fun r => r.handle.isSome)
  let countPresent := raw.any (fun r => r.products_count.isSome)
  raw.map (fun r =>
    { title := if titlePresent then r.title else some ""
      handle := if handlePresent then r.handle else some ""
      products_count := if countPresent then r.products_count.bind coerceCell else none
      template_suffix := r.template_suffix })

/-- One scripted HTTP response of the collections endpoint. -/
structure CollResp where
  status : ℕ
  collections : List RawCollection

/-- The URL requested for one collections page,
f"{base_url}/collections.json?limit={limit}&page={page}". -/
def collectionsUrl (baseUrl : String) (limit page : ℕ) : String :=
  baseUrl ++ "/collections.json?limit=" ++ toString limit ++ "&page=" ++ toString page

/-- The message raised by fetch_collections on a non-200 status other than
404, 401 and 403. -/
def collectionsFailMsg (url : String) (status : ℕ) : String :=
  "Failed fetching " ++ url ++ " (status " ++ toString status ++ ")"

/-- The message fetch_collections raises on a 404 status. -/
def collections404Msg : String := "collections.json not available (404)"

/-- The message fetch_collections raises on a 401 or 403 status. -/
def collectionsForbiddenMsg : String := "collections.json is not publicly accessible"

/-- The message fetch_collections raises on an empty accumulated result. -/
def noCollectionsMsg : String := "No collections returned from collections.json"

/-- src/collections_scraper.py lines 27-50: the pagination loop of
fetch_collections, with its status-specific error refinements checked in
source order (404 first, then 401/403, then any other non-200). -/
def fetchCollectionPages (baseUrl : String) (limit : ℕ) :
    List CollResp → ℕ → List RawCollection → Except PyExn (List RawCollection)
  | [], _, acc => .ok acc
  | r :: rest, page, acc =>
    if r.status = 404 then .error (.shopifyScraperError collections404Msg)
    else if r.status = 401 ∨ r.status = 403 then
      .error (.shopifyScraperError collectionsForbiddenMsg)
    else if r.status ≠ 200 then
      .error (.shopifyScraperError (collectionsFailMsg (collectionsUrl baseUrl limit page) r.status))
    else if r.collections.isEmpty then .ok acc
    else if r.collections.length < limit then .ok (acc ++ r.collections)
    else fetchCollectionPages baseUrl limit rest (page + 1) (acc ++ r.collections)

/-- src/collections_scraper.py lines 10-71: fetch_collections, the loop
followed by the empty-result check and the column normalization. -/
def fetch_collections (baseUrl : String) (limit : ℕ) (pages : List CollResp) :
    Except PyExn (List CollRow) :=
  match fetchCollectionPages baseUrl limit pages 1 [] with
  | .error e => .error e
  | .ok raw =>
    if raw.isEmpty then .error (.shopifyScraperError noCollectionsMsg)
    else .ok (normalize_collections raw)

/-- A float value as the code computes it; population standard deviations
are kept symbolically as the square root of the carried rational. -/
inductive FloatVal where
  | ofRat (q : ℚ)
  | sqrtOf (q : ℚ)

/-- A JSON-like Python value: the shape of the profile dict and of every
sub-summary dict the pipeline produces. -/
inductive JVal where
  | int (n : ℤ)
  | numv (v : FloatVal)
  | str (s : String)
  | bool (b : Bool)
  | null
  | arr (xs : List JVal)
  | dict (kvs : List (String × JVal))

/-- Minimum of a rational list (meaningful on non-empty input). -/
def listMin (l : List ℚ) : ℚ := l.foldl min (l.headD 0)

/-- Maximum of a rational list (meaningful on non-empty input). -/
def listMax (l : List ℚ) : ℚ := l.foldl max (l.headD 0)

/-- Arithmetic mean of a rational list. -/
def meanQ (l : List ℚ) : ℚ := l.sum / (l.length : ℚ)

/-- Population variance (the square of std with ddof equal to 0). -/
def popVar (l : List ℚ) : ℚ := ((l.map (fun x => (x - meanQ l) ^ 2)).sum) / (l.length : ℚ)

/-- Values sorted ascending, as pandas quantile sorts them. -/
def sortAsc (l : List ℚ) : List ℚ := l.insertionSort (fun a b => a ≤ b)

/-- The pandas linear-interpolation quantile: position p * (n - 1) between
the sorted values, interpolating between the two neighbouring entries. -/
def quantileLin (l : List ℚ) (p : ℚ) : ℚ :=
  let xs := sortAsc l
  let pos : ℚ := p * ((xs.length : ℚ) - 1)
  let i : ℕ := pos.floor.toNat
  let frac : ℚ := pos - (i : ℚ)
  let lo := xs.getD i 0
  let hi := xs.getD (i + 1) lo
  lo + (hi - lo) * frac

/-- src/analyzer.py lines 8-21: summarize_numeric.  The series is coerced
and cleaned; an empty result yields the empty dict, otherwise the eight
statistics are produced, std being 0.0 when at most one value remains. -/
def summarize_numeric (xs : List NumCell) : List (String × JVal) :=
  let s := coerce_dropna xs
  if s.isEmpty then []
  else
    [("count", .int s.length),
     ("min", .numv (.ofRat (listMin s))),
     ("max", .numv (.ofRat (listMax s))),
     ("mean", .numv (.ofRat (meanQ s))),
     ("median", .numv (.ofRat (quantileLin s (1/2)))),
     ("std", if 1 < s.length then JVal.numv (.sqrtOf (popVar s)) else JVal.numv (.ofRat 0)),
     ("p25", .numv (.ofRat (quantileLin s (1/4)))),
     ("p75", .numv (.ofRat (quantileLin s (3/4))))]

/-- Number of occurrences of a key in a list. -/
def countOcc (l : List String) (k : String) : ℕ := (l.filter (fun s => s == k)).length

/-- The distinct elements in first-occurrence order. -/
def dedupFirst (l : List String) : List String :=
  l.foldl (fun acc s => if s ∈ acc then acc else acc ++ [s]) []

/-- Occurrence counts sorted by decreasing count, ties in first-occurrence
order (the tie order of pandas value_counts is backend-defined; the stable
sort used here matches Counter.most_common). -/
def countsDesc (l : List String) : List (String × ℕ) :=
  ((dedupFirst l).map (fun k => (k, countOcc l k))).insertionSort (fun a b => b.2 ≤ a.2)

/-- src/analyzer.py lines 24-31: get_tag_counts, the most common tags over
the concatenation of every tags_list. -/
def get_tag_counts (df : List Product) (topN : ℕ) : List (String × ℕ) :=
  (countsDesc (df.map (fun p => p.tags_list)).flatten).take topN

/-- src/analyzer.py lines 34-63: analyze_products, the base profile dict. -/
def analyze_products (df : List Product) : List (String × JVal) :=
  [("n_products", .int df.length),
   ("price_stats", .dict (summarize_numeric (df.map (fun p =>
      match p.first_variant_price with
      | some q => NumCell.num q
      | none => NumCell.na)))),
   ("title_length_stats", .dict (summarize_numeric (df.map (fun p => NumCell.num p.title_len)))),
   ("description_length_stats", .dict (summarize_numeric (df.map (fun p => NumCell.num p.desc_len)))),
   ("product_types", .dict ((countsDesc (df.map (fun p =>
      if p.product_type = "" then "Unspecified" else p.product_type))).map
        (fun kv => (kv.1, JVal.int kv.2)))),
   ("top_tags", .dict ((get_tag_counts df 50).map (fun kv => (kv.1, JVal.int kv.2))))]

/-- The path component of a URL as urlparse extracts it: for an absolute
http(s) URL everything between the netloc and the query or fragment, and
for a scheme-less reference the text up to the query or fragment. -/
def afterNetlocPath (r : List Char) : List Char :=
  (r.dropWhile (fun c => !netlocStop c)).takeWhile (fun c => !(c = '?' || c = '#'))

/-- See afterNetlocPath. -/
def urlPathChars (l : List Char) : List Char :=
  if httpPfx.isPrefixOf l then afterNetlocPath (l.drop 7)
  else if httpsPfx.isPrefixOf l then afterNetlocPath (l.drop 8)
  else l.takeWhile (fun c => !(c = '?' || c = '#'))

/-- src/sitemap_scraper.py lines 22-38: _classify_url, first-matching
substring over the lowercased path in the fixed priority order. -/
def _classify_url (url : String) : String :=
  let path := lowerChars (urlPathChars url.data)
  if containsSub "/products/".data path then "product"
  else if containsSub "/collections/".data path then "collection"
  else if containsSub "/blogs/".data path then "blog"
  else if containsSub "/pages/".data path then "page"
  else "other"

/-- Key lookup in an insertion-ordered dict modelled as an association
list (Python dict membership and dict.get). -/
def getKey {β : Type} (m : List (String × β)) (k : String) : Option β :=
  match m with
  | [] => none
  | (k1, v) :: t => if k1 = k then some v else getKey t k

/-- by_type_counts[t] = by_type_counts.get(t, 0) + 1 on an insertion-ordered
dict modelled as an association list. -/
def bumpCount (m : List (String × ℕ)) (k : String) : List (String × ℕ) :=
  match m with
  | [] => [(k, 1)]
  | (k1, c) :: t => if k1 = k then (k1, c + 1) :: t else (k1, c) :: bumpCount t k

/-- The examples update of summarize_sitemap: ensure the key exists, then
append the location while fewer than the cap are stored. -/
def addExample (m : List (String × List String)) (k : String) (loc : String) (maxE : ℕ) :
    List (String × List String) :=
  match m with
  | [] => [(k, if (0 : ℕ) < maxE then [loc] else [])]
  | (k1, cur) :: t =>
    if k1 = k then (k1, if cur.length < maxE then cur ++ [loc] else cur) :: t
    else (k1, cur) :: addExample t k loc maxE

/-- src/sitemap_scraper.py lines 110-143: summarize_sitemap.  Counts and
examples are accumulated per classified type in first-seen key order; only
truthy lastmod strings are collected; the latest lastmod is the
lexicographic maximum (None when no entry has one). -/
def summarize_sitemap (urls : List (String × Option String)) (maxExamples : ℕ) :
    List (String × JVal) :=
  let st := urls.foldl
    (fun (st : List (String × ℕ) × List (String × List String) × List String) u =>
      let t := _classify_url u.1
      let counts := bumpCount st.1 t
      let ex := addExample st.2.1 t u.1 maxExamples
      let lms := match u.2 with
        | some lm => if lm = "" then st.2.2 else st.2.2 ++ [lm]
        | none => st.2.2
      (counts, ex, lms))
    ([], [], [])
  let latest : JVal := if st.2.2.isEmpty then .null else .str (st.2.2.foldl max "")
  [("total_urls", .int urls.length),
   ("by_type", .dict (st.1.map (fun kv => (kv.1, JVal.int kv.2)))),
   ("latest_lastmod", latest),
   ("example_urls", .dict (st.2.1.map (fun kv => (kv.1, JVal.arr (kv.2.map JVal.str)))))]

/-- src/tech_stack.py lines 16-18: _find_any, case-insensitive substring
search of any needle in the document. -/
def _find_any (html : String) (needles : List String) : Bool :=
  needles.any (fun n => containsSub (lowerChars n.data) (lowerChars html.data))

/-- src/tech_stack.py lines 34-72: the app signature table, in source
order. -/
def appTable : List (String × List String) :=
  [("Klaviyo", ["klaviyo.js", "klaviyo", "klaviyo_tracking"]),
   ("Omnisend", ["omnisend", "omni_send"]),
   ("Mailchimp", ["mailchimp", "mcjs"]),
   ("Yotpo", ["yotpo", "staticw2.yotpo.com"]),
   ("Judge.me", ["judge.me", "cdn.judge.me"]),
   ("Stamped.io", ["stamped.io", "stamped-reviews"]),
   ("Recharge", ["recharge.js", "rechargepayments"]),
   ("Bold Subscriptions", ["bold-subscriptions", "boldSubscriptions"]),
   ("Gorgias", ["gorgias-", "gorgias.io"]),
   ("Intercom", ["intercom", "widget.intercom.io"]),
   ("Zendesk", ["zendesk", "zdassets.com"]),
   ("Crisp chat", ["crisp.chat", "client.crisp.im"]),
   ("Shogun", ["shogun", "cdn.getshogun.com"]),
   ("PageFly", ["pagefly", "cdn.pagefly.io"]),
   ("GemPages", ["gem_pages", "gempages"])]

/-- src/tech_stack.py lines 75-87: the tracking pixel signature table. -/
def pixelTable : List (String × List String) :=
  [("Google Analytics / gtag", ["gtag(\x27config\x27", "www.googletagmanager.com/gtag/"]),
   ("Google Tag Manager", ["www.googletagmanager.com/gtm.js"]),
   ("Facebook Pixel", ["fbq(\x27init\x27", "connect.facebook.net/en_US/fbevents.js"]),
   ("Snap Pixel", ["snaptr(\x27init\x27", "sc-static.net/scevent.min.js"]),
   ("TikTok Pixel", ["tiktokanalytics.js", "analytics.tiktok.com"]),
   ("Hotjar", ["hotjar", "static.hotjar.com"])]

/-- src/tech_stack.py lines 21-102: detect_tech_stack.  Apps are gathered
in table order then deduplicated and sorted; pixels keep check order; the
theme hint is overwritten by each later matching heuristic. -/
def detect_tech_stack (html : String) : List (String × JVal) :=
  let apps := (appTable.filter (fun e => _find_any html e.2)).map (fun e => e.1)
  let pixels := (pixelTable.filter (fun e => _find_any html e.2)).map
    (fun e => (e.1, JVal.bool true))
  let lower := lowerChars html.data
  let t0 : Option String := none
  let t1 := if containsSub "shopify.theme".data lower || containsSub "theme_name".data lower then
    some "Custom / identified in JS" else t0
  let t2 := if containsSub "debut".data lower then some "Possibly Debut theme" else t1
  let t3 := if containsSub "dawn".data lower then some "Possibly Dawn theme" else t2
  [("apps_detected", .arr (((dedupFirst apps).insertionSort (fun a b => a ≤ b)).map JVal.str)),
   ("pixels", .dict pixels),
   ("theme_hint", match t3 with | some s => JVal.str s | none => JVal.null)]

/-- Python int() truncation of a rational toward zero. -/
def ratTrunc (q : ℚ) : ℤ := if 0 ≤ q then q.floor else -((-q).floor)

/-- src/collections_scraper.py lines 74-124: summarize_collections.  The
rows with a products_count are ranked by decreasing count (pandas
sort_values is backend-sorted; a stable sort models it) and capped; the
template-suffix breakdown exists only when that column does. -/
def summarize_collections (rows : List CollRow) (topN : ℕ) : List (String × JVal) :=
  let withCounts := rows.filter (fun r => r.products_count.isSome)
  let sorted := (withCounts.insertionSort
    (fun a b => (b.products_count.getD 0) ≤ (a.products_count.getD 0))).take topN
  let top := sorted.map (fun r =>
    JVal.dict [("title", .str (pyStr r.title)), ("handle", .str (pyStr r.handle)),
               ("products_count", .int (ratTrunc (r.products_count.getD 0)))])
  let tmplCounts :=
    if rows.any (fun r => r.template_suffix.isSome) then
      countsDesc (rows.map (fun r =>
        match r.template_suffix with
        | none => "default"
        | some s => if s = "" then "default" else s))
    else []
  [("n_collections", .int rows.length),
   ("collections_with_product_counts", .int withCounts.length),
   ("top_collections_by_products", .arr top),
   ("template_suffix_counts", .dict (tmplCounts.map (fun kv => (kv.1, JVal.int kv.2))))]

/-- The message raised by cluster_products on fewer than five products. -/
def notEnoughMsg : String := "Not enough products to perform clustering."

/-- The message raised by cluster_products when scikit-learn is missing. -/
def sklearnMissingMsg : String :=
  "scikit-learn is required for product clustering. Install with `pip install scikit-learn`."

/-- The outcomes of the scikit-learn calls inside cluster_products: import
availability, the TfidfVectorizer fit_transform outcome, and the KMeans
fit_predict outcome (one label per document on success). -/
structure SkOracle where
  importOk : Bool
  tfidf : Except PyExn Unit
  fitPredict : Except PyExn (List ℕ)

/-- src/product_clustering.py lines 51-57: the cluster-count policy, the
clamp between 2 and 10 of a thirtieth of the corpus size when no count is
supplied, then the cap at the document count. -/
def chooseNClusters (given : Option ℕ) (nDocs : ℕ) : ℕ :=
  let k := match given with
    | some k0 => k0
    | none => max 2 (min 10 (nDocs / 30))
  if k > nDocs then nDocs else k

/-- src/product_clustering.py lines 12-119: cluster_products.  Import
check, corpus build, minimum-size precondition, vectorization, cluster
count choice, KMeans labelling, then the per-cluster summaries. -/
def cluster_products (df : List Product) (n_clusters : Option ℕ) (sk : SkOracle) :
    Except PyExn (List Product × List (String × JVal)) :=
  if !sk.importOk then .error (.productClusteringError sklearnMissingMsg)
  else
    let texts := df.map (fun p => pyStr p.title ++ " " ++ pyStr p.body_html)
    if texts.length < 5 then .error (.productClusteringError notEnoughMsg)
    else
      match sk.tfidf with
      | .error e => .error e
      | .ok _ =>
        let nDocs := texts.length
        let k := chooseNClusters n_clusters nDocs
        match sk.fitPredict with
        | .error e => .error e
        | .ok labels =>
          let df2 := df.mapIdx (fun i p => { p with cluster := some (labels.getD i 0) })
          let clustersInfo := (List.range k).map (fun cid =>
            let members := df2.filter (fun p => p.cluster == some cid)
            let prices := members.filterMap (fun p => p.first_variant_price)
            let avgPrice : JVal := if prices.isEmpty then .null else .numv (.ofRat (meanQ prices))
            let topTypes := (countsDesc (members.map (fun p =>
              if p.product_type = "" then "Unspecified" else p.product_type))).take 5
            let exTitles := (members.map (fun p => pyStr p.title)).take 5
            JVal.dict [("cluster_id", .int cid), ("size", .int members.length),
                       ("avg_price", avgPrice),
                       ("top_product_types", .dict (topTypes.map (fun kv => (kv.1, JVal.int kv.2)))),
                       ("example_titles", .arr (exTitles.map JVal.str))])
          .ok (df2, [("n_clusters", .int k), ("clusters", .arr clustersInfo)])

/-- The environment of one generate_store_report run: the user-given URL
and the outcome of each network-performing callee (the product fetch, the
scikit-learn calls, the collections fetch, the sitemap fetch and the
homepage fetch).  Filesystem persistence is out of scope and assumed to
succeed. -/
structure ReportEnv where
  store_url : String
  productsResult : Except PyExn (List Product)
  sk : SkOracle
  collectionsFetch : Except PyExn (List CollRow)
  sitemapFetch : Except PyExn (List (String × Option String))
  homepageFetch : Except PyExn String

/-- Python dict assignment on an insertion-ordered dict modelled as an
association list: update in place when the key exists, append otherwise. -/
def setKey (m : List (String × JVal)) (k : String) (v : JVal) : List (String × JVal) :=
  match m with
  | [] => [(k, v)]
  | (k1, v1) :: t => if k1 = k then (k1, v) :: t else (k1, v1) :: setKey t k v

/-- src/reporting.py lines 249-308: the profile-building part of
generate_store_report.  The product fetch is unguarded; each of the four
soft sources is wrapped in handlers that catch its typed error and any
other exception and substitute the empty dict. -/
def generate_store_report (env : ReportEnv) : Except PyExn (List (String × JVal)) :=
  let u := normalize_store_url env.store_url
  let slug := store_slug_from_url u
  match env.productsResult with
  | .error e => .error e
  | .ok df =>
    let profile := analyze_products df
    let profile := setKey profile "store_url" (.str u)
    let profile := setKey profile "store_slug" (.str slug)
    let profile := setKey profile "clustering"
      (match cluster_products df none env.sk with
       | .ok x => .dict x.2
       | .error _ => .dict [])
    let profile := setKey profile "collections"
      (match env.collectionsFetch with
       | .ok rows => .dict (summarize_collections rows 20)
       | .error _ => .dict [])
    let profile := setKey profile "sitemap"
      (match env.sitemapFetch with
       | .ok urls => .dict (summarize_sitemap urls 5)
       | .error _ => .dict [])
    let profile := setKey profile "tech_stack"
      (match env.homepageFetch with
       | .ok html => .dict (detect_tech_stack html)
       | .error _ => .dict [])
    .ok profile


/-- A concrete product row used to instantiate universally quantified
theorems on explicit inputs. -/
def sampleProduct : Product :=
  { title := some "Widget", body_html := some "A widget.", product_type := ""
    first_variant_price := none, title_len := 6, desc_len := 9
    tags_list := [], cluster := none }

/-- A concrete raw product record used for explicit pagination inputs. -/
def sampleRawProduct : RawProduct :=
  { title := some "Widget", body_html := some "A widget."
    variants := some (.list []), tags := some (.list []), product_type := some "" }

/-! Helper lemmas shared by the claim theorems. -/

theorem getKey_setKey_self (m : List (String × JVal)) (k : String) (v : JVal) :
    getKey (setKey m k v) k = some v := by
  induction m with
  | nil => simp [setKey, getKey]
  | cons a t ih =>
    rcases a with ⟨k1, v1⟩
    by_cases hk : k1 = k
    · subst hk
      simp [setKey, getKey]
    · simp [setKey, getKey, hk]
      exact ih

theorem getKey_setKey_other (m : List (String × JVal)) (k k' : String) (v : JVal)
    (h : k' ≠ k) :
    getKey (setKey m k v) k' = getKey m k' := by
  induction m with
  | nil =>
    have h2 : ¬ (k = k') := fun hh => h hh.symm
    simp [setKey, getKey, h2]
  | cons a t ih =>
    rcases a with ⟨k1, v1⟩
    by_cases hk : k1 = k
    · subst hk
      have h2 : ¬ (k1 = k') := fun hh => h hh.symm
      simp [setKey, getKey, h2]
    · by_cases h2 : k1 = k'
      · subst h2
        simp [setKey, getKey, hk]
      · simp [setKey, getKey, hk, h2]
        exact ih

theorem noProductsMsg_ne_failMsg (u : String) (c : ℕ) :
    noProductsMsg ≠ productsFailMsg u c := by
  intro h
  have h2 := congrArg (fun s => s.data.headD 'x') h
  have h3 : ('N' : Char) = 'F' := h2
  exact absurd h3 (by decide)

theorem prodFailMsg_ne_coll404 (u : String) (c : ℕ) :
    productsFailMsg u c ≠ collections404Msg := by
  intro h
  have h2 := congrArg (fun s => s.data.headD 'x') h
  have h3 : ('F' : Char) = 'c' := h2
  exact absurd h3 (by decide)

theorem dropWhile_eq_self_of_not {p : Char → Bool} {l : List Char}
    (h : ∀ c ∈ l, p c = false) : l.dropWhile p = l := by
  cases l with
  | nil => rfl
  | cons c t => simp [List.dropWhile, h c (by simp)]

theorem trimChars_eq_self {l : List Char} (h : ∀ c ∈ l, isPyWS c = false) :
    trimChars l = l := by
  unfold trimChars
  rw [dropWhile_eq_self_of_not h]
  rw [dropWhile_eq_self_of_not (fun c hc => h c (List.mem_reverse.mp hc))]
  exact List.reverse_reverse l

theorem mem_trimChars {c : Char} {l : List Char} (h : c ∈ trimChars l) : c ∈ l := by
  unfold trimChars at h
  have h1 := List.mem_reverse.mp h
  have h2 := (List.dropWhile_sublist _).mem h1
  have h3 := List.mem_reverse.mp h2
  exact (List.dropWhile_sublist _).mem h3

theorem takeWhile_append_of {p : Char → Bool} {a b : List Char}
    (ha : ∀ c ∈ a, p c = true)
    (hb : b = [] ∨ ∃ c t, b = c :: t ∧ p c = false) :
    (a ++ b).takeWhile p = a := by
  induction a with
  | nil =>
    rcases hb with hb | ⟨c, t, rfl, hc⟩
    · simp [hb]
    · simp [List.takeWhile, hc]
  | cons x xs ih =>
    have hx : p x = true := ha x (by simp)
    have ih2 := ih (fun c hc => ha c (by simp [hc]))
    simp only [List.cons_append, List.takeWhile, hx, List.append_eq, ih2]

theorem takeWhile_eq_self_of {p : Char → Bool} {l : List Char}
    (h : ∀ c ∈ l, p c = true) : l.takeWhile p = l :=
  List.takeWhile_eq_self_iff.mpr h

theorem isPrefixOf_append_self (a b : List Char) : a.isPrefixOf (a ++ b) = true := by
  induction a with
  | nil => simp [List.isPrefixOf]
  | cons c t ih => simp [List.isPrefixOf, ih]

theorem http_not_pfx_https (x : List Char) :
    httpPfx.isPrefixOf (httpsPfx ++ x) = false := by
  simp [httpPfx, httpsPfx, List.isPrefixOf]

theorem https_not_pfx_http (x : List Char) :
    httpsPfx.isPrefixOf (httpPfx ++ x) = false := by
  simp [httpPfx, httpsPfx, List.isPrefixOf]

theorem httpPfx_no_ws : ∀ c ∈ httpPfx, isPyWS c = false := by decide

theorem httpsPfx_no_ws : ∀ c ∈ httpsPfx, isPyWS c = false := by decide

theorem normChars_fixed_http {n : List Char}
    (hstop : ∀ c ∈ n, netlocStop c = false) (hws : ∀ c ∈ n, isPyWS c = false) :
    normChars (httpPfx ++ n) = httpPfx ++ n := by
  have htrim : trimChars (httpPfx ++ n) = httpPfx ++ n := by
    apply trimChars_eq_self
    intro c hc
    rcases List.mem_append.mp hc with hc | hc
    · exact httpPfx_no_ws c hc
    · exact hws c hc
  have hpfx : httpPfx.isPrefixOf (httpPfx ++ n) = true := isPrefixOf_append_self _ _
  have hdrop : (httpPfx ++ n).drop 7 = n := by
    have h7 : httpPfx.length = 7 := rfl
    rw [← h7]
    exact List.drop_left _ _
  have hnet : netlocChars n = n := by
    unfold netlocChars
    exact takeWhile_eq_self_of (fun c hc => by simp [hstop c hc])
  unfold normChars
  simp only [htrim, hpfx, Bool.true_or, if_true, hdrop, hnet]

theorem normChars_fixed_https {n : List Char}
    (hstop : ∀ c ∈ n, netlocStop c = false) (hws : ∀ c ∈ n, isPyWS c = false) :
    normChars (httpsPfx ++ n) = httpsPfx ++ n := by
  have htrim : trimChars (httpsPfx ++ n) = httpsPfx ++ n := by
    apply trimChars_eq_self
    intro c hc
    rcases List.mem_append.mp hc with hc | hc
    · exact httpsPfx_no_ws c hc
    · exact hws c hc
  have hpfx : httpsPfx.isPrefixOf (httpsPfx ++ n) = true := isPrefixOf_append_self _ _
  have hnotp : httpPfx.isPrefixOf (httpsPfx ++ n) = false := http_not_pfx_https n
  have hdrop : (httpsPfx ++ n).drop 8 = n := by
    have h8 : httpsPfx.length = 8 := rfl
    rw [← h8]
    exact List.drop_left _ _
  have hnet : netlocChars n = n := by
    unfold netlocChars
    exact takeWhile_eq_self_of (fun c hc => by simp [hstop c hc])
  unfold normChars
  simp only [htrim, hpfx, hnotp, Bool.false_or, if_true, Bool.false_eq_true, if_false, hdrop, hnet]

theorem mem_netlocChars {c : Char} {l : List Char} (h : c ∈ netlocChars l) :
    netlocStop c = false ∧ c ∈ l := by
  unfold netlocChars at h
  have h1 := List.mem_takeWhile_imp h
  refine ⟨by simpa using h1, (List.takeWhile_sublist _).mem h⟩

theorem normChars_idem {l : List Char} (hws : ∀ c ∈ l, isPyWS c = false) :
    normChars (normChars l) = normChars l := by
  have htl : trimChars l = l := trimChars_eq_self hws
  by_cases h1 : httpPfx.isPrefixOf l = true
  · have hset : normChars l = httpPfx ++ netlocChars (l.drop 7) := by
      unfold normChars
      simp [htl, h1]
    rw [hset]
    exact normChars_fixed_http
      (fun c hc => (mem_netlocChars hc).1)
      (fun c hc => hws c ((List.drop_sublist _ _).mem (mem_netlocChars hc).2))
  · by_cases h2 : httpsPfx.isPrefixOf l = true
    · have hset : normChars l = httpsPfx ++ netlocChars (l.drop 8) := by
        unfold normChars
        simp [htl, h1, h2]
      rw [hset]
      exact normChars_fixed_https
        (fun c hc => (mem_netlocChars hc).1)
        (fun c hc => hws c ((List.drop_sublist _ _).mem (mem_netlocChars hc).2))
    · have hd : (httpsPfx ++ l).drop 8 = l := by
        have h8 : httpsPfx.length = 8 := rfl
        rw [← h8]
        exact List.drop_left _ _
      have hset : normChars l = httpsPfx ++ netlocChars l := by
        unfold normChars
        simp [htl, h1, h2, http_not_pfx_https, hd]
      rw [hset]
      exact normChars_fixed_https
        (fun c hc => (mem_netlocChars hc).1)
        (fun c hc => hws c (mem_netlocChars hc).2)

theorem fetchProductPages_skip (baseUrl : String) (limit : ℕ) (hlim : 0 < limit) :
    ∀ (pre : List ProductsResp),
      (∀ r ∈ pre, r.status = 200 ∧ r.products.length = limit) →
      ∀ (rest : List ProductsResp) (page : ℕ) (acc : List RawProduct) (reqs : ℕ),
        fetchProductPages baseUrl limit (pre ++ rest) page acc reqs
          = fetchProductPages baseUrl limit rest (page + pre.length)
              (acc ++ (pre.map (fun r => r.products)).flatten) (reqs + pre.length) := by
  intro pre
  induction pre with
  | nil =>
    intro _ rest page acc reqs
    simp
  | cons r pre ih =>
    intro hpre rest page acc reqs
    have hr := hpre r (by simp)
    have hnotlt : ¬ (r.products.length < limit) := by
      rw [hr.2]
      exact lt_irrefl _
    have hem : r.products.isEmpty = false := by
      cases hp : r.products with
      | nil =>
        have h2 := hr.2
        rw [hp] at h2
        simp at h2
        omega
      | cons a t => rfl
    have hstep : fetchProductPages baseUrl limit (r :: (pre ++ rest)) page acc reqs
        = fetchProductPages baseUrl limit (pre ++ rest) (page + 1) (acc ++ r.products) (reqs + 1) := by
      simp [fetchProductPages, hr.1, hem, hnotlt]
    have e1 : page + 1 + pre.length = page + (r :: pre).length := by
      simp
      omega
    have e2 : reqs + 1 + pre.length = reqs + (r :: pre).length := by
      simp
      omega
    have e3 : (acc ++ r.products) ++ ((pre.map (fun r => r.products)).flatten)
        = acc ++ (((r :: pre).map (fun r => r.products)).flatten) := by
      simp
    rw [List.cons_append, hstep,
      ih (fun x hx => hpre x (List.mem_cons_of_mem r hx)) rest (page + 1) (acc ++ r.products) (reqs + 1),
      e1, e2, e3]

theorem fetchCollectionPages_skip (baseUrl : String) (limit : ℕ) (hlim : 0 < limit) :
    ∀ (pre : List CollResp),
      (∀ r ∈ pre, r.status = 200 ∧ r.collections.length = limit) →
      ∀ (rest : List CollResp) (page : ℕ) (acc : List RawCollection),
        fetchCollectionPages baseUrl limit (pre ++ rest) page acc
          = fetchCollectionPages baseUrl limit rest (page + pre.length)
              (acc ++ (pre.map (fun r => r.collections)).flatten) := by
  intro pre
  induction pre with
  | nil =>
    intro _ rest page acc
    simp
  | cons r pre ih =>
    intro hpre rest page acc
    have hr := hpre r (by simp)
    have hnotlt : ¬ (r.collections.length < limit) := by
      rw [hr.2]
      exact lt_irrefl _
    have hem : r.collections.isEmpty = false := by
      cases hp : r.collections with
      | nil =>
        have h2 := hr.2
        rw [hp] at h2
        simp at h2
        omega
      | cons a t => rfl
    have h404 : r.status ≠ 404 := by
      rw [hr.1]
      decide
    have h401 : ¬ (r.status = 401 ∨ r.status = 403) := by
      rw [hr.1]
      decide
    have hstep : fetchCollectionPages baseUrl limit (r :: (pre ++ rest)) page acc
        = fetchCollectionPages baseUrl limit (pre ++ rest) (page + 1) (acc ++ r.collections) := by
      simp [fetchCollectionPages, hr.1, hem, hnotlt, h404, h401]
    have e1 : page + 1 + pre.length = page + (r :: pre).length := by
      simp
      omega
    have e3 : (acc ++ r.collections) ++ ((pre.map (fun r => r.collections)).flatten)
        = acc ++ (((r :: pre).map (fun r => r.collections)).flatten) := by
      simp
    rw [List.cons_append, hstep,
      ih (fun x hx => hpre x (List.mem_cons_of_mem r hx)) rest (page + 1) (acc ++ r.collections),
      e1, e3]

/-- Claim C2 (counterexample): a raw record whose first variant has no
price key makes the first-variant-price lambda raise TypeError instead of
yielding null, refuting the never-raises part of the claim at this input. -/
theorem c2_price_counterexample :
    first_variant_price_cell (.list [⟨none⟩]) = .error .typeError ∧
    first_variant_price_cell (.list [⟨none⟩]) ≠ .ok none := by
  constructor
  · rfl
  · intro h
    rw [show first_variant_price_cell (.list [⟨none⟩]) = .error .typeError from rfl] at h
    exact Except.noConfusion h

/-- Claim C2 (amended): first_variant_price is the parsed price of variant
index 0 when the variant cell is a non-empty list and that price parses;
it is null when the cell is not a list or the list is empty; but a
non-numeric string price raises ValueError and a missing or non-castable
price raises TypeError instead of yielding null. -/
theorem c2_price_amended :
    (first_variant_price_cell .notList = .ok none) ∧
    (first_variant_price_cell (.list []) = .ok none) ∧
    (∀ (q : ℚ) (rest : List VariantJson),
      first_variant_price_cell (.list (⟨some (.parses q)⟩ :: rest)) = .ok (some q)) ∧
    (∀ rest : List VariantJson,
      first_variant_price_cell (.list (⟨some .badStr⟩ :: rest)) = .error .valueError) ∧
    (∀ rest : List VariantJson,
      first_variant_price_cell (.list (⟨some .badType⟩ :: rest)) = .error .typeError) ∧
    (∀ rest : List VariantJson,
      first_variant_price_cell (.list (⟨none⟩ :: rest)) = .error .typeError) :=
  ⟨rfl, rfl, fun _ _ => rfl, fun _ => rfl, fun _ => rfl, fun _ => rfl⟩

/-- Claim C3: with page size 250, three scripted pages of 250, 250 and 10
items accumulate 510 items in exactly 3 requests, and pages of 250 then 0
items accumulate 250 items in exactly 2 requests. -/
theorem c3_pagination :
    (∀ b1 b2 b3 : List RawProduct, b1.length = 250 → b2.length = 250 → b3.length = 10 →
      fetch_products_raw "https://example.com" 250 [⟨200, b1⟩, ⟨200, b2⟩, ⟨200, b3⟩]
        = .ok (b1 ++ b2 ++ b3, 3) ∧ (b1 ++ b2 ++ b3).length = 510) ∧
    (∀ b1 : List RawProduct, b1.length = 250 →
      fetch_products_raw "https://example.com" 250 [⟨200, b1⟩, ⟨200, ([] : List RawProduct)⟩]
        = .ok (b1, 2) ∧ b1.length = 250) := by
  constructor
  · intro b1 b2 b3 h1 h2 h3
    have hskip := fetchProductPages_skip "https://example.com" 250 (by norm_num)
      [⟨200, b1⟩, ⟨200, b2⟩]
      (by
        intro r hr
        simp at hr
        rcases hr with rfl | rfl
        · exact ⟨rfl, h1⟩
        · exact ⟨rfl, h2⟩)
      [⟨200, b3⟩] 1 [] 0
    simp only [List.cons_append, List.nil_append, List.map_cons, List.map_nil,
      List.flatten_cons, List.flatten_nil, List.append_nil] at hskip
    have hb3em : b3.isEmpty = false := by
      cases hp : b3 with
      | nil =>
        rw [hp] at h3
        simp at h3
      | cons a t => rfl
    have hb3lt : b3.length < 250 := by
      rw [h3]
      norm_num
    have hloop : fetchProductPages "https://example.com" 250
        [⟨200, b1⟩, ⟨200, b2⟩, ⟨200, b3⟩] 1 [] 0 = .ok ((b1 ++ b2) ++ b3, 3) := by
      rw [hskip]
      simp [fetchProductPages, hb3em, hb3lt]
    have hne : (b1 ++ (b2 ++ b3)).isEmpty = false := by
      cases hp : b1 ++ (b2 ++ b3) with
      | nil =>
        have := congrArg List.length hp
        simp [h1, h2, h3] at this
      | cons a t => rfl
    constructor
    · unfold fetch_products_raw
      rw [hloop]
      simp only [hne, Bool.false_eq_true, if_false, List.append_assoc]
    · simp [h1, h2, h3]
  · intro b1 h1
    have hskip := fetchProductPages_skip "https://example.com" 250 (by norm_num)
      [⟨200, b1⟩]
      (by
        intro r hr
        simp at hr
        subst hr
        exact ⟨rfl, h1⟩)
      [⟨200, ([] : List RawProduct)⟩] 1 [] 0
    simp only [List.cons_append, List.nil_append, List.map_cons, List.map_nil,
      List.flatten_cons, List.flatten_nil, List.append_nil] at hskip
    have hloop : fetchProductPages "https://example.com" 250
        [⟨200, b1⟩, ⟨200, ([] : List RawProduct)⟩] 1 [] 0 = .ok (b1, 2) := by
      rw [hskip]
      simp [fetchProductPages]
    have hne : b1.isEmpty = false := by
      cases hp : b1 with
      | nil =>
        rw [hp] at h1
        simp at h1
      | cons a t => rfl
    constructor
    · unfold fetch_products_raw
      rw [hloop]
      simp [hne]
    · exact h1

theorem c3_pagination_witness :
    (fetch_products_raw "https://example.com" 250
        [⟨200, List.replicate 250 sampleRawProduct⟩, ⟨200, List.replicate 250 sampleRawProduct⟩,
         ⟨200, List.replicate 10 sampleRawProduct⟩]
      = .ok (List.replicate 250 sampleRawProduct ++ List.replicate 250 sampleRawProduct
          ++ List.replicate 10 sampleRawProduct, 3)) ∧
    (List.replicate 250 sampleRawProduct ++ List.replicate 250 sampleRawProduct
      ++ List.replicate 10 sampleRawProduct).length = 510 ∧
    fetch_products_raw "https://example.com" 250
        [⟨200, List.replicate 250 sampleRawProduct⟩, ⟨200, ([] : List RawProduct)⟩]
      = .ok (List.replicate 250 sampleRawProduct, 2) := by
  have h1 := c3_pagination.1 (List.replicate 250 sampleRawProduct)
    (List.replicate 250 sampleRawProduct) (List.replicate 10 sampleRawProduct)
    (List.length_replicate 250 sampleRawProduct) (List.length_replicate 250 sampleRawProduct)
    (List.length_replicate 10 sampleRawProduct)
  have h2 := c3_pagination.2 (List.replicate 250 sampleRawProduct)
    (List.length_replicate 250 sampleRawProduct)
  exact ⟨h1.1, h1.2, h2.1⟩

/-- Claim C6: a product fetch whose pages all return status 200 but whose
accumulated list is empty raises ShopifyScraperError with the no-products
message, which differs from every failing-status message. -/
theorem c6_empty_products :
    (∀ (baseUrl : String) (limit : ℕ) (pages : List ProductsResp) (n : ℕ),
      (∀ r ∈ pages, r.status = 200) →
      fetchProductPages baseUrl limit pages 1 [] 0 = .ok ([], n) →
      fetch_products_raw baseUrl limit pages = .error (.shopifyScraperError noProductsMsg)) ∧
    (∀ (u : String) (c : ℕ), noProductsMsg ≠ productsFailMsg u c) := by
  constructor
  · intro baseUrl limit pages n _ hloop
    unfold fetch_products_raw
    rw [hloop]
    rfl
  · exact noProductsMsg_ne_failMsg

theorem c6_empty_products_witness :
    fetch_products_raw "https://example.com" 250 [⟨200, ([] : List RawProduct)⟩]
      = .error (.shopifyScraperError noProductsMsg) ∧
    noProductsMsg ≠ productsFailMsg (productsUrl "https://example.com" 250 1) 404 := by
  constructor
  · exact c6_empty_products.1 "https://example.com" 250 [⟨200, ([] : List RawProduct)⟩] 1
      (by
        intro r hr
        simp at hr
        subst hr
        rfl)
      rfl
  · exact c6_empty_products.2 (productsUrl "https://example.com" 250 1) 404

/-- Claim C7: tag normalization accepts a list or a comma-separated
string, trims whitespace, drops empty tokens, maps the missing value to
the empty list, and never produces an empty token. -/
theorem c7_normalize_tags :
    normalize_tags .na = [] ∧
    normalize_tags (.list ["Red", " Red ", ""]) = ["Red", "Red"] ∧
    normalize_tags (.scalar "a, b ,, c") = ["a", "b", "c"] ∧
    (∀ (cell : TagsCell) (t : String), t ∈ normalize_tags cell → t ≠ "") := by
  refine ⟨rfl, by decide, by decide, ?_⟩
  intro cell t ht
  cases cell with
  | na => simp [normalize_tags] at ht
  | list xs =>
    have h := List.of_mem_filter ht
    simpa using h
  | scalar s =>
    have h := List.of_mem_filter ht
    simpa using h

theorem c7_normalize_tags_witness :
    ("a" ∈ normalize_tags (.scalar "a, b ,, c")) ∧ "a" ≠ "" := by
  constructor
  · decide
  · exact c7_normalize_tags.2.2.2 (.scalar "a, b ,, c") "a" (by decide)

/-- Claim C10: the numeric summary is the empty dict exactly when no cell
coerces to a number; otherwise it carries the eight statistic keys in
order, and std is 0.0 when exactly one numeric value is present. -/
theorem c10_summarize_numeric (xs : List NumCell) :
    (coerce_dropna xs = [] → summarize_numeric xs = []) ∧
    (coerce_dropna xs ≠ [] →
      (summarize_numeric xs).map Prod.fst
        = ["count", "min", "max", "mean", "median", "std", "p25", "p75"] ∧
      ((coerce_dropna xs).length = 1 →
        getKey (summarize_numeric xs) "std" = some (.numv (.ofRat 0)))) := by
  have hkeys : ∀ h : (coerce_dropna xs).isEmpty = false,
      True := fun _ => trivial
  constructor
  · intro h
    unfold summarize_numeric
    rw [h]
    rfl
  · intro h
    have hem : (coerce_dropna xs).isEmpty = false := by
      cases hc : coerce_dropna xs with
      | nil => exact absurd hc h
      | cons a t => rfl
    constructor
    · unfold summarize_numeric
      simp [hem]
    · intro h1
      unfold summarize_numeric
      simp [hem, h1, getKey]

theorem chooseNClusters_none (n : ℕ) :
    chooseNClusters none n = min (max 2 (min 10 (n / 30))) n := by
  show (if max 2 (min 10 (n / 30)) > n then n else max 2 (min 10 (n / 30))) = _
  split_ifs with h
  · omega
  · omega

/-- Claim C8: with scikit-learn importable, clustering fewer than 5
products raises the typed clustering error; on 5 or more products with no
explicit cluster count the chosen k is the clamp of a thirtieth of the
count to the range 2..10, capped at the count — so k = 3 for 100
products. -/
theorem c8_clustering (df : List Product) (sk : SkOracle) (him : sk.importOk = true) :
    (df.length < 5 →
      cluster_products df none sk = .error (.productClusteringError notEnoughMsg)) ∧
    (5 ≤ df.length → ∀ labels, sk.tfidf = .ok () → sk.fitPredict = .ok labels →
      ∃ df2 summ, cluster_products df none sk = .ok (df2, summ) ∧
        getKey summ "n_clusters"
          = some (.int (min (max 2 (min 10 (df.length / 30))) df.length)) ∧
        (df.length = 100 → getKey summ "n_clusters" = some (.int 3))) := by
  have hlen : (df.map (fun p => pyStr p.title ++ " " ++ pyStr p.body_html)).length = df.length :=
    List.length_map _ _
  constructor
  · intro h5
    unfold cluster_products
    rw [him]
    simp only [Bool.not_true, Bool.false_eq_true, if_false]
    rw [if_pos (by rw [hlen]; exact h5)]
  · intro h5 labels htf hfp
    unfold cluster_products
    rw [him, htf, hfp]
    simp only [Bool.not_true, Bool.false_eq_true, if_false]
    rw [if_neg (by rw [hlen]; omega)]
    refine ⟨_, _, rfl, ?_, ?_⟩
    · simp [getKey, hlen, chooseNClusters_none]
    · intro h100
      simp [getKey, hlen, chooseNClusters_none, h100]

theorem c8_clustering_witness :
    cluster_products (List.replicate 4 sampleProduct) none
        ⟨true, .ok (), .ok ([] : List ℕ)⟩
      = .error (.productClusteringError notEnoughMsg) ∧
    (∃ df2 summ,
      cluster_products (List.replicate 100 sampleProduct) none
          ⟨true, .ok (), .ok (List.replicate 100 0)⟩
        = .ok (df2, summ) ∧
      getKey summ "n_clusters" = some (.int 3)) := by
  constructor
  · exact (c8_clustering (List.replicate 4 sampleProduct)
      ⟨true, .ok (), .ok ([] : List ℕ)⟩ rfl).1
      (by rw [List.length_replicate]; norm_num)
  · obtain ⟨df2, summ, hok, _, h100⟩ := (c8_clustering (List.replicate 100 sampleProduct)
      ⟨true, .ok (), .ok (List.replicate 100 0)⟩ rfl).2
      (by rw [List.length_replicate]; norm_num)
      (List.replicate 100 0) rfl rfl
    exact ⟨df2, summ, hok, h100 (List.length_replicate 100 sampleProduct)⟩

/-- Claim C4 (counterexample): a products endpoint answering 404 makes
fetch_products raise the one generic status-carrying message — not a
status-refined resource-not-available message, refuting the claim for the
product fetch. -/
theorem c4_status_counterexample :
    fetch_products_raw "https://example.com" 250 [⟨404, []⟩]
      = .error (.shopifyScraperError
          (productsFailMsg (productsUrl "https://example.com" 250 1) 404)) ∧
    productsFailMsg (productsUrl "https://example.com" 250 1) 404
      = "Failed fetching https://example.com/products.json?limit=250&page=1 (status 404)" ∧
    productsFailMsg (productsUrl "https://example.com" 250 1) 404 ≠ collections404Msg ∧
    productsFailMsg (productsUrl "https://example.com" 250 1) 404 ≠ collectionsForbiddenMsg := by
  refine ⟨rfl, by decide, by decide, by decide⟩

/-- Claim C4 (amended): any non-200 response aborts either fetch with a
typed ShopifyScraperError; the collection fetch refines the message by
status (404 not-available, 401/403 not-publicly-accessible, otherwise the
generic status-carrying message), while the product fetch always raises
the generic status-carrying message with no refinement. -/
theorem c4_status_amended :
    (∀ (baseUrl : String) (limit : ℕ) (pre : List ProductsResp) (s : ℕ)
        (batch : List RawProduct) (rest : List ProductsResp),
      0 < limit → (∀ r ∈ pre, r.status = 200 ∧ r.products.length = limit) → s ≠ 200 →
      fetch_products_raw baseUrl limit (pre ++ ⟨s, batch⟩ :: rest)
        = .error (.shopifyScraperError
            (productsFailMsg (productsUrl baseUrl limit (pre.length + 1)) s))) ∧
    (∀ (baseUrl : String) (limit : ℕ) (pre : List CollResp) (s : ℕ)
        (batch : List RawCollection) (rest : List CollResp),
      0 < limit → (∀ r ∈ pre, r.status = 200 ∧ r.collections.length = limit) →
      (s = 404 →
        fetch_collections baseUrl limit (pre ++ ⟨s, batch⟩ :: rest)
          = .error (.shopifyScraperError collections404Msg)) ∧
      ((s = 401 ∨ s = 403) →
        fetch_collections baseUrl limit (pre ++ ⟨s, batch⟩ :: rest)
          = .error (.shopifyScraperError collectionsForbiddenMsg)) ∧
      (s ≠ 200 → s ≠ 404 → s ≠ 401 → s ≠ 403 →
        fetch_collections baseUrl limit (pre ++ ⟨s, batch⟩ :: rest)
          = .error (.shopifyScraperError
              (collectionsFailMsg (collectionsUrl baseUrl limit (pre.length + 1)) s)))) := by
  constructor
  · intro baseUrl limit pre s batch rest hlim hpre hs
    unfold fetch_products_raw
    rw [fetchProductPages_skip baseUrl limit hlim pre hpre (⟨s, batch⟩ :: rest) 1 [] 0]
    have hstep : fetchProductPages baseUrl limit (⟨s, batch⟩ :: rest) (1 + pre.length)
        ([] ++ (pre.map (fun r => r.products)).flatten) (0 + pre.length)
        = .error (.shopifyScraperError
            (productsFailMsg (productsUrl baseUrl limit (pre.length + 1)) s)) := by
      simp [fetchProductPages, hs, Nat.add_comm]
    rw [hstep]
  · intro baseUrl limit pre s batch rest hlim hpre
    have hskip := fetchCollectionPages_skip baseUrl limit hlim pre hpre (⟨s, batch⟩ :: rest) 1 []
    refine ⟨?_, ?_, ?_⟩
    · intro h404
      subst h404
      unfold fetch_collections
      rw [hskip]
      have hstep : fetchCollectionPages baseUrl limit (⟨404, batch⟩ :: rest) (1 + pre.length)
          ([] ++ (pre.map (fun r => r.collections)).flatten)
          = .error (.shopifyScraperError collections404Msg) := by
        simp [fetchCollectionPages]
      rw [hstep]
    · intro hor
      have h404 : ¬ ((⟨s, batch⟩ : CollResp).status = 404) := by
        rcases hor with rfl | rfl <;> simp
      unfold fetch_collections
      rw [hskip]
      have hstep : fetchCollectionPages baseUrl limit (⟨s, batch⟩ :: rest) (1 + pre.length)
          ([] ++ (pre.map (fun r => r.collections)).flatten)
          = .error (.shopifyScraperError collectionsForbiddenMsg) := by
        simp [fetchCollectionPages, h404, hor]
      rw [hstep]
    · intro hs h404 h401 h403
      unfold fetch_collections
      rw [hskip]
      have hstep : fetchCollectionPages baseUrl limit (⟨s, batch⟩ :: rest) (1 + pre.length)
          ([] ++ (pre.map (fun r => r.collections)).flatten)
          = .error (.shopifyScraperError
              (collectionsFailMsg (collectionsUrl baseUrl limit (pre.length + 1)) s)) := by
        simp [fetchCollectionPages, h404, h401, h403, hs, Nat.add_comm]
      rw [hstep]

theorem c4_status_amended_witness :
    fetch_products_raw "https://example.com" 250 [⟨500, []⟩]
      = .error (.shopifyScraperError
          (productsFailMsg (productsUrl "https://example.com" 250 1) 500)) ∧
    fetch_collections "https://example.com" 250 [⟨404, []⟩]
      = .error (.shopifyScraperError collections404Msg) ∧
    fetch_collections "https://example.com" 250 [⟨403, []⟩]
      = .error (.shopifyScraperError collectionsForbiddenMsg) ∧
    fetch_collections "https://example.com" 250 [⟨500, []⟩]
      = .error (.shopifyScraperError
          (collectionsFailMsg (collectionsUrl "https://example.com" 250 1) 500)) := by
  have hp := c4_status_amended.1 "https://example.com" 250 [] 500 [] []
    (by norm_num) (by simp) (by decide)
  have hc404 := (c4_status_amended.2 "https://example.com" 250 [] 404 [] []
    (by norm_num) (by simp)).1 rfl
  have hc403 := (c4_status_amended.2 "https://example.com" 250 [] 403 [] []
    (by norm_num) (by simp)).2.1 (Or.inr rfl)
  have hc500 := (c4_status_amended.2 "https://example.com" 250 [] 500 [] []
    (by norm_num) (by simp)).2.2 (by decide) (by decide) (by decide) (by decide)
  exact ⟨hp, hc404, hc403, hc500⟩

theorem normChars_scheme_host_path (host p : List Char)
    (hh : ∀ c ∈ host, netlocStop c = false ∧ isPyWS c = false)
    (hp : ∀ c ∈ p, isPyWS c = false)
    (hsep : p = [] ∨ ∃ c t, p = c :: t ∧ netlocStop c = true) :
    normChars (httpsPfx ++ (host ++ p)) = httpsPfx ++ host ∧
    normChars (httpPfx ++ (host ++ p)) = httpPfx ++ host := by
  have hwsall : ∀ c ∈ host ++ p, isPyWS c = false := by
    intro c hc
    rcases List.mem_append.mp hc with hc | hc
    · exact (hh c hc).2
    · exact hp c hc
  have hnet : netlocChars (host ++ p) = host := by
    unfold netlocChars
    apply takeWhile_append_of
    · intro c hc
      simp [(hh c hc).1]
    · rcases hsep with rfl | ⟨c, t, rfl, hc⟩
      · exact Or.inl rfl
      · exact Or.inr ⟨c, t, rfl, by simp [hc]⟩
  constructor
  · have htrim : trimChars (httpsPfx ++ (host ++ p)) = httpsPfx ++ (host ++ p) := by
      apply trimChars_eq_self
      intro c hc
      rcases List.mem_append.mp hc with hc | hc
      · exact httpsPfx_no_ws c hc
      · exact hwsall c hc
    have hd : (httpsPfx ++ (host ++ p)).drop 8 = host ++ p := by
      have h8 : httpsPfx.length = 8 := rfl
      rw [← h8]
      exact List.drop_left _ _
    unfold normChars
    simp only [htrim, isPrefixOf_append_self, http_not_pfx_https, Bool.false_or,
      Bool.false_eq_true, if_false, if_true, hd, hnet]
  · have htrim : trimChars (httpPfx ++ (host ++ p)) = httpPfx ++ (host ++ p) := by
      apply trimChars_eq_self
      intro c hc
      rcases List.mem_append.mp hc with hc | hc
      · exact httpPfx_no_ws c hc
      · exact hwsall c hc
    have hd : (httpPfx ++ (host ++ p)).drop 7 = host ++ p := by
      have h7 : httpPfx.length = 7 := rfl
      rw [← h7]
      exact List.drop_left _ _
    unfold normChars
    simp only [htrim, isPrefixOf_append_self, Bool.true_or, if_true, hd, hnet]

/-- Claim C5 (counterexample): normalization keeps an explicit http
scheme, so "http://example.com/" and "example.com" do not normalize to
one and the same base URL, refuting the three-way equality. -/
theorem c5_normalize_counterexample :
    normalize_store_url "http://example.com/" = "http://example.com" ∧
    normalize_store_url "example.com" = "https://example.com" ∧
    normalize_store_url "http://example.com/" ≠ normalize_store_url "example.com" := by
  refine ⟨by decide, by decide, by decide⟩

/-- Claim C5 (amended): "example.com" and "https://example.com/some/path"
normalize to the same base URL while "http://example.com/" keeps its http
scheme; normalization is idempotent on whitespace-free input; two inputs
with the same scheme and host differing only by path or trailing slash
normalize to the same value; and a scheme-less input normalizes exactly as
its https-prefixed form. -/
theorem c5_normalize_amended :
    (normalize_store_url "example.com" = "https://example.com" ∧
     normalize_store_url "https://example.com/some/path" = "https://example.com" ∧
     normalize_store_url "http://example.com/" = "http://example.com") ∧
    (∀ s : String, (∀ c ∈ s.data, isPyWS c = false) →
      normalize_store_url (normalize_store_url s) = normalize_store_url s) ∧
    (∀ host p1 p2 : List Char,
      (∀ c ∈ host, netlocStop c = false ∧ isPyWS c = false) →
      (∀ c ∈ p1, isPyWS c = false) → (∀ c ∈ p2, isPyWS c = false) →
      (p1 = [] ∨ ∃ c t, p1 = c :: t ∧ netlocStop c = true) →
      (p2 = [] ∨ ∃ c t, p2 = c :: t ∧ netlocStop c = true) →
      normalize_store_url ⟨httpsPfx ++ (host ++ p1)⟩
        = normalize_store_url ⟨httpsPfx ++ (host ++ p2)⟩ ∧
      normalize_store_url ⟨httpPfx ++ (host ++ p1)⟩
        = normalize_store_url ⟨httpPfx ++ (host ++ p2)⟩) ∧
    (∀ l : List Char, (∀ c ∈ l, isPyWS c = false) →
      httpPfx.isPrefixOf l = false → httpsPfx.isPrefixOf l = false →
      normalize_store_url ⟨l⟩ = normalize_store_url ⟨httpsPfx ++ l⟩) := by
  refine ⟨⟨by decide, by decide, by decide⟩, ?_, ?_, ?_⟩
  · intro s hws
    show (⟨normChars (normChars s.data)⟩ : String) = ⟨normChars s.data⟩
    exact congrArg String.mk (normChars_idem hws)
  · intro host p1 p2 hh hp1 hp2 hs1 hs2
    have h1 := normChars_scheme_host_path host p1 hh hp1 hs1
    have h2 := normChars_scheme_host_path host p2 hh hp2 hs2
    constructor
    · show (⟨normChars (httpsPfx ++ (host ++ p1))⟩ : String) = ⟨normChars (httpsPfx ++ (host ++ p2))⟩
      rw [h1.1, h2.1]
    · show (⟨normChars (httpPfx ++ (host ++ p1))⟩ : String) = ⟨normChars (httpPfx ++ (host ++ p2))⟩
      rw [h1.2, h2.2]
  · intro l hws h1 h2
    have htl : trimChars l = l := trimChars_eq_self hws
    have hd : (httpsPfx ++ l).drop 8 = l := by
      have h8 : httpsPfx.length = 8 := rfl
      rw [← h8]
      exact List.drop_left _ _
    have htrim2 : trimChars (httpsPfx ++ l) = httpsPfx ++ l := by
      apply trimChars_eq_self
      intro c hc
      rcases List.mem_append.mp hc with hc | hc
      · exact httpsPfx_no_ws c hc
      · exact hws c hc
    have hlhs : normChars l = httpsPfx ++ netlocChars l := by
      unfold normChars
      simp only [htl, h1, h2, Bool.or_self, Bool.false_eq_true, if_false,
        http_not_pfx_https, hd]
    have hrhs : normChars (httpsPfx ++ l) = httpsPfx ++ netlocChars l := by
      unfold normChars
      simp only [htrim2, isPrefixOf_append_self, http_not_pfx_https, Bool.false_or,
        Bool.false_eq_true, if_false, if_true, hd]
    show (⟨normChars l⟩ : String) = ⟨normChars (httpsPfx ++ l)⟩
    rw [hlhs, hrhs]

theorem c5_normalize_amended_witness :
    normalize_store_url (normalize_store_url "example.com/shop")
      = normalize_store_url "example.com/shop" ∧
    normalize_store_url ⟨httpsPfx ++ ("example.com".data ++ "/some/path".data)⟩
      = normalize_store_url ⟨httpsPfx ++ ("example.com".data ++ "/".data)⟩ ∧
    normalize_store_url ⟨"example.com".data⟩
      = normalize_store_url ⟨httpsPfx ++ "example.com".data⟩ := by
  refine ⟨c5_normalize_amended.2.1 "example.com/shop" (by decide), ?_, ?_⟩
  · exact (c5_normalize_amended.2.2.1 "example.com".data "/some/path".data "/".data
      (by decide) (by decide) (by decide)
      (Or.inr ⟨'/', "some/path".data, rfl, by decide⟩)
      (Or.inr ⟨'/', [], rfl, by decide⟩)).1
  · exact c5_normalize_amended.2.2.2 "example.com".data (by decide) (by decide) (by decide)

/-- Claim C9: sitemap URL classification returns exactly one of the five
type names by first-matching path substring in the priority order
products, collections, blogs, pages, other, as the concrete examples
show. -/
theorem c9_classify :
    (∀ url : String,
      _classify_url url ∈ (["product", "collection", "blog", "page", "other"] : List String)) ∧
    (∀ url : String,
      (_classify_url url = "product" ↔
        containsSub "/products/".data (lowerChars (urlPathChars url.data)) = true) ∧
      (_classify_url url = "collection" ↔
        (containsSub "/products/".data (lowerChars (urlPathChars url.data)) = false ∧
         containsSub "/collections/".data (lowerChars (urlPathChars url.data)) = true)) ∧
      (_classify_url url = "blog" ↔
        (containsSub "/products/".data (lowerChars (urlPathChars url.data)) = false ∧
         containsSub "/collections/".data (lowerChars (urlPathChars url.data)) = false ∧
         containsSub "/blogs/".data (lowerChars (urlPathChars url.data)) = true)) ∧
      (_classify_url url = "page" ↔
        (containsSub "/products/".data (lowerChars (urlPathChars url.data)) = false ∧
         containsSub "/collections/".data (lowerChars (urlPathChars url.data)) = false ∧
         containsSub "/blogs/".data (lowerChars (urlPathChars url.data)) = false ∧
         containsSub "/pages/".data (lowerChars (urlPathChars url.data)) = true)) ∧
      (_classify_url url = "other" ↔
        (containsSub "/products/".data (lowerChars (urlPathChars url.data)) = false ∧
         containsSub "/collections/".data (lowerChars (urlPathChars url.data)) = false ∧
         containsSub "/blogs/".data (lowerChars (urlPathChars url.data)) = false ∧
         containsSub "/pages/".data (lowerChars (urlPathChars url.data)) = false))) ∧
    _classify_url "https://x.com/products/foo" = "product" ∧
    _classify_url "https://x.com/collections/bar" = "collection" ∧
    _classify_url "https://x.com/blogs/news/post" = "blog" ∧
    _classify_url "https://x.com/pages/about" = "page" ∧
    _classify_url "https://x.com/cart" = "other" := by
  have hcl : ∀ url : String, _classify_url url
      = (if containsSub "/products/".data (lowerChars (urlPathChars url.data)) then "product"
         else if containsSub "/collections/".data (lowerChars (urlPathChars url.data)) then "collection"
         else if containsSub "/blogs/".data (lowerChars (urlPathChars url.data)) then "blog"
         else if containsSub "/pages/".data (lowerChars (urlPathChars url.data)) then "page"
         else "other") := fun url => rfl
  refine ⟨?_, ?_, by decide, by decide, by decide, by decide, by decide⟩
  · intro url
    rw [hcl url]
    split_ifs <;> simp
  · intro url
    rw [hcl url]
    cases h1 : containsSub "/products/".data (lowerChars (urlPathChars url.data)) <;>
      cases h2 : containsSub "/collections/".data (lowerChars (urlPathChars url.data)) <;>
        cases h3 : containsSub "/blogs/".data (lowerChars (urlPathChars url.data)) <;>
          cases h4 : containsSub "/pages/".data (lowerChars (urlPathChars url.data)) <;>
            simp

theorem getKey_profile_chain (base : List (String × JVal)) (v1 v2 v3 v4 v5 v6 : JVal) :
    getKey (setKey (setKey (setKey (setKey (setKey (setKey base
        "store_url" v1) "store_slug" v2) "clustering" v3) "collections" v4)
        "sitemap" v5) "tech_stack" v6) "clustering" = some v3 ∧
    getKey (setKey (setKey (setKey (setKey (setKey (setKey base
        "store_url" v1) "store_slug" v2) "clustering" v3) "collections" v4)
        "sitemap" v5) "tech_stack" v6) "collections" = some v4 ∧
    getKey (setKey (setKey (setKey (setKey (setKey (setKey base
        "store_url" v1) "store_slug" v2) "clustering" v3) "collections" v4)
        "sitemap" v5) "tech_stack" v6) "sitemap" = some v5 ∧
    getKey (setKey (setKey (setKey (setKey (setKey (setKey base
        "store_url" v1) "store_slug" v2) "clustering" v3) "collections" v4)
        "sitemap" v5) "tech_stack" v6) "tech_stack" = some v6 := by
  refine ⟨?_, ?_, ?_, ?_⟩
  · rw [getKey_setKey_other _ "tech_stack" "clustering" _ (by decide),
      getKey_setKey_other _ "sitemap" "clustering" _ (by decide),
      getKey_setKey_other _ "collections" "clustering" _ (by decide)]
    exact getKey_setKey_self _ _ _
  · rw [getKey_setKey_other _ "tech_stack" "collections" _ (by decide),
      getKey_setKey_other _ "sitemap" "collections" _ (by decide)]
    exact getKey_setKey_self _ _ _
  · rw [getKey_setKey_other _ "tech_stack" "sitemap" _ (by decide)]
    exact getKey_setKey_self _ _ _
  · exact getKey_setKey_self _ _ _

/-- Claim C1: a ShopifyScraperError (or any exception) from the product
fetch propagates out of the aggregation run, while a failure of any of
the four soft sources (clustering, collections, sitemap, tech stack)
leaves the run succeeding with that source key present in the profile
and bound to the empty summary dict, never absent. -/
theorem c1_soft_hard_isolation (env : ReportEnv) :
    (∀ e, env.productsResult = .error e → generate_store_report env = .error e) ∧
    (∀ df, env.productsResult = .ok df →
      ∃ p, generate_store_report env = .ok p ∧
        (getKey p "clustering").isSome = true ∧
        (getKey p "collections").isSome = true ∧
        (getKey p "sitemap").isSome = true ∧
        (getKey p "tech_stack").isSome = true ∧
        (∀ e, cluster_products df none env.sk = .error e →
          getKey p "clustering" = some (JVal.dict [])) ∧
        (∀ e, env.collectionsFetch = .error e →
          getKey p "collections" = some (JVal.dict [])) ∧
        (∀ e, env.sitemapFetch = .error e →
          getKey p "sitemap" = some (JVal.dict [])) ∧
        (∀ e, env.homepageFetch = .error e →
          getKey p "tech_stack" = some (JVal.dict []))) := by
  constructor
  · intro e he
    unfold generate_store_report
    rw [he]
  · intro df hdf
    have hgen : generate_store_report env = .ok (setKey (setKey (setKey (setKey (setKey (setKey
        (analyze_products df)
        "store_url" (.str (normalize_store_url env.store_url)))
        "store_slug" (.str (store_slug_from_url (normalize_store_url env.store_url))))
        "clustering" (match cluster_products df none env.sk with
          | .ok x => JVal.dict x.2
          | .error _ => JVal.dict []))
        "collections" (match env.collectionsFetch with
          | .ok rows => JVal.dict (summarize_collections rows 20)
          | .error _ => JVal.dict []))
        "sitemap" (match env.sitemapFetch with
          | .ok urls => JVal.dict (summarize_sitemap urls 5)
          | .error _ => JVal.dict []))
        "tech_stack" (match env.homepageFetch with
          | .ok html => JVal.dict (detect_tech_stack html)
          | .error _ => JVal.dict [])) := by
      unfold generate_store_report
      rw [hdf]
    obtain ⟨hc3, hc4, hc5, hc6⟩ := getKey_profile_chain
      (analyze_products df)
      (.str (normalize_store_url env.store_url))
      (.str (store_slug_from_url (normalize_store_url env.store_url)))
      (match cluster_products df none env.sk with
        | .ok x => JVal.dict x.2
        | .error _ => JVal.dict [])
      (match env.collectionsFetch with
        | .ok rows => JVal.dict (summarize_collections rows 20)
        | .error _ => JVal.dict [])
      (match env.sitemapFetch with
        | .ok urls => JVal.dict (summarize_sitemap urls 5)
        | .error _ => JVal.dict [])
      (match env.homepageFetch with
        | .ok html => JVal.dict (detect_tech_stack html)
        | .error _ => JVal.dict [])
    refine ⟨_, hgen, ?_, ?_, ?_, ?_, ?_, ?_, ?_, ?_⟩
    · rw [hc3]
      rfl
    · rw [hc4]
      rfl
    · rw [hc5]
      rfl
    · rw [hc6]
      rfl
    · intro e he
      rw [hc3, he]
    · intro e he
      rw [hc4, he]
    · intro e he
      rw [hc5, he]
    · intro e he
      rw [hc6, he]

theorem c1_soft_hard_isolation_witness :
    ∃ p, generate_store_report
        ⟨"https://example.com", .ok ([] : List Product), ⟨true, .ok (), .ok ([] : List ℕ)⟩,
          .error .otherExn, .error .otherExn, .error .otherExn⟩ = .ok p ∧
      getKey p "clustering" = some (JVal.dict []) ∧
      getKey p "collections" = some (JVal.dict []) ∧
      getKey p "sitemap" = some (JVal.dict []) ∧
      getKey p "tech_stack" = some (JVal.dict []) := by
  obtain ⟨p, hp, _, _, _, _, hcl, hco, hsi, hte⟩ :=
    (c1_soft_hard_isolation
      ⟨"https://example.com", .ok ([] : List Product), ⟨true, .ok (), .ok ([] : List ℕ)⟩,
        .error .otherExn, .error .otherExn, .error .otherExn⟩).2 [] rfl
  exact ⟨p, hp, hcl (.productClusteringError notEnoughMsg) rfl, hco .otherExn rfl,
    hsi .otherExn rfl, hte .otherExn rfl⟩

theorem c10_summarize_numeric_witness :
    summarize_numeric [NumCell.strBad, NumCell.na] = [] ∧
    (summarize_numeric [NumCell.num 5]).map Prod.fst
      = ["count", "min", "max", "mean", "median", "std", "p25", "p75"] ∧
    getKey (summarize_numeric [NumCell.num 5]) "std" = some (.numv (.ofRat 0)) := by
  refine ⟨(c10_summarize_numeric [NumCell.strBad, NumCell.na]).1 rfl, ?_, ?_⟩
  · exact ((c10_summarize_numeric [NumCell.num 5]).2
      (by simp [coerce_dropna, coerceCell])).1
  · exact ((c10_summarize_numeric [NumCell.num 5]).2
      (by simp [coerce_dropna, coerceCell])).2 (by simp [coerce_dropna, coerceCell])
